import Mathlib

/-!
Shallow embedding of the bidding-system administrative web application
(`src/app.py`): the five SQLAlchemy models become Lean structures, the
relational store becomes a record of lists, the Flask session becomes a
record of optional markers, and each route handler becomes a function from
(session, store, arguments) to a result record carrying the new store, the
new session, the flash messages emitted during the request and the HTTP
response.  Theorems about the frozen claims follow the definitions.
-/

namespace BiddingSystem

/-- `werkzeug.security.generate_password_hash`, modelled deterministically:
only the facts that the stored string differs from the plaintext and that
`check_password_hash (generate_password_hash p) p` holds matter to the
application code. -/
def generate_password_hash (p : String) : String :=
  "scrypt:32768:8:1$" ++ p

/-- `werkzeug.security.check_password_hash`, matching the model above. -/
def check_password_hash (h p : String) : Bool :=
  h == generate_password_hash p

/-- `class User(db.Model)` (src/app.py lines 14-21). -/
structure User where
  id : Nat
  name : String
  email : String
  password : String
  status : String
  role : String
deriving DecidableEq, Repr

/-- `class AuctionItem(db.Model)` (src/app.py lines 24-31).  The form value
for `base_price` is passed through unaltered by the handlers, so it is kept
as the submitted string. -/
structure AuctionItem where
  id : Nat
  name : String
  description : String
  base_price : String
  image_url : String
  status : String
  auction_id : Nat
deriving DecidableEq, Repr

/-- `class Category(db.Model)` (src/app.py lines 32-34). -/
structure Category where
  id : Nat
  name : String
deriving DecidableEq, Repr

/-- `class Auction(db.Model)` (src/app.py lines 36-44).  The model declares
columns id, title, description, start_date, end_date, category_id and the
`category`/`bids` relationships only: there is no `status` column.  Dates
are kept as the submitted form strings. -/
structure Auction where
  id : Nat
  title : String
  description : String
  start_date : String
  end_date : String
  category_id : Nat
deriving DecidableEq, Repr

/-- `class Bid(db.Model)` (src/app.py lines 46-53).  Amounts in the claims
are exact integers, so `amount` is an `Int`. -/
structure Bid where
  id : Nat
  auction_id : Nat
  user_id : Nat
  amount : Int
  bid_time : String
  approved : Bool
  rejected : Bool
deriving DecidableEq, Repr

/-- The relational store: one list per table of the sqlite database. -/
structure Store where
  users : List User
  categories : List Category
  auctions : List Auction
  items : List AuctionItem
  bids : List Bid
deriving DecidableEq, Repr

/-- The Flask session, holding the three markers that `login` establishes
and the protected routes test (`'user_id' in session`). -/
structure Session where
  user_id : Option Nat
  user_name : Option String
  user_role : Option String
deriving DecidableEq, Repr

/-- A session with no markers: no user has logged in. -/
def Session.empty : Session :=
  { user_id := none, user_name := none, user_role := none }

/-- A flash message together with its category (`flash(msg, category)`). -/
structure Flash where
  message : String
  category : String
deriving DecidableEq, Repr

/-- The synthetic `DummyObj` class used by `manage_bids` for placeholder
auction/user display objects (src/app.py lines 340-342). -/
structure DummyObj where
  name : String
deriving DecidableEq, Repr

/-- The `DummyBid` namedtuple used by `manage_bids` when the bid table is
empty (src/app.py lines 338-353). -/
structure DummyBid where
  id : Nat
  auction : DummyObj
  user : DummyObj
  amount : Int
  bid_time : String
  approved : Bool
  rejected : Bool
deriving DecidableEq, Repr

/-- What `manage_bids` hands to the `bids.html` template: either the real
rows or the ten synthetic placeholders (duck-typed in the Python source). -/
inductive BidsView where
  | real (bs : List Bid)
  | dummies (ds : List DummyBid)
deriving DecidableEq, Repr

/-- The response produced by a handler: a rendered template (with the data
passed to it), a redirect, or an unhandled-exception failure (`None`
attribute access aborts the request with a server error). -/
inductive Response where
  | renderLanding
  | renderLogin
  | renderRegister
  | renderDashboard (users active_users inactive_users items active_items
      auctions bids categories : Nat)
  | renderUsers (us : List User)
  | renderUserForm (u : Option User)
  | renderAuctions (auctionList : List Auction)
  | renderAuctionForm (a : Option Auction) (cats : List Category)
  | renderBids (view : BidsView)
  | renderItems (its : List AuctionItem)
  | renderItemForm (it : Option AuctionItem) (auctionList : List Auction)
  | renderCategories (cs : List Category)
  | redirect (path : String)
  | serverError
deriving DecidableEq, Repr

/-- Outcome of one request: resulting store, resulting session, flashes
emitted during the request, and the response. -/
structure HResult where
  store : Store
  session : Session
  flashes : List Flash
  response : Response
deriving DecidableEq, Repr

/-- Fresh primary key for an insert: sqlite assigns max existing id + 1. -/
def nextId (ids : List Nat) : Nat :=
  (ids.foldl max 0) + 1

/-- Form fields of a registration POST. -/
structure RegisterForm where
  name : String
  email : String
  password : String
  confirm_password : String
  role : String
deriving DecidableEq, Repr

/-- `register` POST branch (src/app.py lines 118-174).  The six checks run
in source order; the first failure flashes a danger message and re-renders
the form.  `db.session.commit()` raises on the `unique=True` email column
when a row with the new (lowercased, trimmed) email already exists; the
`except` branch rolls back, flashes a generic message and re-renders. -/
def register (sess : Session) (st : Store) (f : RegisterForm) : HResult :=
  if f.name == "" || f.name.trim.length < 2 then
    { store := st, session := sess,
      flashes := [⟨"Name must be at least 2 characters long", "danger"⟩],
      response := .renderRegister }
  else if f.email == "" || !(f.email.contains '@') then
    { store := st, session := sess,
      flashes := [⟨"Please enter a valid email address", "danger"⟩],
      response := .renderRegister }
  else if f.password.length < 8 then
    { store := st, session := sess,
      flashes := [⟨"Password must be at least 8 characters long", "danger"⟩],
      response := .renderRegister }
  else if f.password != f.confirm_password then
    { store := st, session := sess,
      flashes := [⟨"Passwords do not match", "danger"⟩],
      response := .renderRegister }
  else if f.role == "" then
    { store := st, session := sess,
      flashes := [⟨"Please select a role", "danger"⟩],
      response := .renderRegister }
  else
    match st.users.find? (fun u => u.email == f.email) with
    | some _ =>
      { store := st, session := sess,
        flashes := [⟨"An account with this email already exists", "danger"⟩],
        response := .renderRegister }
    | none =>
      let new_user : User :=
        { id := nextId (st.users.map User.id),
          name := f.name.trim,
          email := f.email.toLower.trim,
          password := generate_password_hash f.password,
          role := f.role,
          status := "active" }
      if st.users.any (fun u => u.email == new_user.email) then
        { store := st, session := sess,
          flashes := [⟨"An error occurred while creating your account. Please try again.", "danger"⟩],
          response := .renderRegister }
      else
        { store := { st with users := st.users ++ [new_user] }, session := sess,
          flashes := [⟨"Account created successfully! Please login.", "success"⟩],
          response := .redirect "/login" }

/-- Form fields of a login POST. -/
structure LoginForm where
  email : String
  password : String
deriving DecidableEq, Repr

/-- `login` POST branch (src/app.py lines 97-116). -/
def login (sess : Session) (st : Store) (f : LoginForm) : HResult :=
  match st.users.find? (fun u => u.email == f.email) with
  | some user =>
    if check_password_hash user.password f.password then
      if user.status == "inactive" then
        { store := st, session := sess,
          flashes := [⟨"Your account has been deactivated. Please contact administrator.", "danger"⟩],
          response := .renderLogin }
      else
        { store := st,
          session := { user_id := some user.id, user_name := some user.name,
                       user_role := some user.role },
          flashes := [⟨"Welcome back, " ++ user.name ++ "!", "success"⟩],
          response := .redirect "/dashboard" }
    else
      { store := st, session := sess,
        flashes := [⟨"Invalid email or password", "danger"⟩],
        response := .renderLogin }
  | none =>
    { store := st, session := sess,
      flashes := [⟨"Invalid email or password", "danger"⟩],
      response := .renderLogin }

/-- `logout` (src/app.py lines 176-182). -/
def logout (sess : Session) (st : Store) : HResult :=
  let _ := sess
  { store := st, session := Session.empty,
    flashes := [⟨"You have been logged out successfully", "info"⟩],
    response := .redirect "/login" }

/-- `dashboard` (src/app.py lines 73-95): session check, then aggregate
counts passed to the template. -/
def dashboard (sess : Session) (st : Store) : HResult :=
  if sess.user_id.isNone then
    { store := st, session := sess, flashes := [], response := .redirect "/login" }
  else
    { store := st, session := sess, flashes := [],
      response := .renderDashboard
        st.users.length
        (st.users.countP (fun u => u.status == "active"))
        (st.users.countP (fun u => u.status == "inactive"))
        st.items.length
        (st.items.countP (fun i => i.status == "active"))
        st.auctions.length
        st.bids.length
        st.categories.length }

/-- `manage_users` (src/app.py lines 187-192). -/
def manage_users (sess : Session) (st : Store) : HResult :=
  if sess.user_id.isNone then
    { store := st, session := sess, flashes := [], response := .redirect "/login" }
  else
    { store := st, session := sess, flashes := [], response := .renderUsers st.users }

/-- Form fields of an add-user POST. -/
structure AddUserForm where
  name : String
  email : String
  password : String
  role : String
deriving DecidableEq, Repr

/-- `add_user` (src/app.py lines 195-208); `form = none` is the GET branch.
The new row takes the column default `status='active'`. -/
def add_user (sess : Session) (st : Store) (form : Option AddUserForm) : HResult :=
  if sess.user_id.isNone then
    { store := st, session := sess, flashes := [], response := .redirect "/login" }
  else
    match form with
    | some f =>
      let user : User :=
        { id := nextId (st.users.map User.id),
          name := f.name, email := f.email,
          password := generate_password_hash f.password,
          role := f.role, status := "active" }
      { store := { st with users := st.users ++ [user] }, session := sess,
        flashes := [], response := .redirect "/users" }
    | none =>
      { store := st, session := sess, flashes := [], response := .renderUserForm none }

/-- Form fields of an edit-user POST. -/
structure EditUserForm where
  name : String
  email : String
  status : String
  role : String
deriving DecidableEq, Repr

/-- `edit_user` (src/app.py lines 211-223); `form = none` is the GET branch.
On POST the handler assigns name, email, status and role from the form and
commits; the password column is not touched.  With an absent id the POST
branch dereferences `None` and the request fails. -/
def edit_user (sess : Session) (st : Store) (id : Nat) (form : Option EditUserForm) :
    HResult :=
  if sess.user_id.isNone then
    { store := st, session := sess, flashes := [], response := .redirect "/login" }
  else
    match form with
    | some f =>
      match st.users.find? (fun u => u.id == id) with
      | some _ =>
        { store := { st with users := st.users.map (fun u =>
            if u.id == id then
              { u with name := f.name, email := f.email, status := f.status, role := f.role }
            else u) },
          session := sess, flashes := [], response := .redirect "/users" }
      | none =>
        { store := st, session := sess, flashes := [], response := .serverError }
    | none =>
      { store := st, session := sess, flashes := [],
        response := .renderUserForm (st.users.find? (fun u => u.id == id)) }

/-- `deactivate_user` (src/app.py lines 226-233).  With an absent id the
handler dereferences `None` and the request fails. -/
def deactivate_user (sess : Session) (st : Store) (id : Nat) : HResult :=
  if sess.user_id.isNone then
    { store := st, session := sess, flashes := [], response := .redirect "/login" }
  else
    match st.users.find? (fun u => u.id == id) with
    | some _ =>
      { store := { st with users := st.users.map (fun u =>
          if u.id == id then { u with status := "inactive" } else u) },
        session := sess, flashes := [], response := .redirect "/users" }
    | none =>
      { store := st, session := sess, flashes := [], response := .serverError }

/-- `reject_bid` (src/app.py lines 238-251): when the bid exists, set
rejected and clear approved; either way flash and redirect to the list. -/
def reject_bid (sess : Session) (st : Store) (id : Nat) : HResult :=
  if sess.user_id.isNone then
    { store := st, session := sess, flashes := [], response := .redirect "/login" }
  else
    match st.bids.find? (fun b => b.id == id) with
    | some _ =>
      { store := { st with bids := st.bids.map (fun b =>
          if b.id == id then { b with rejected := true, approved := false } else b) },
        session := sess,
        flashes := [⟨"Bid #" ++ toString id ++ " rejected!", "danger"⟩],
        response := .redirect "/bids" }
    | none =>
      { store := st, session := sess,
        flashes := [⟨"Dummy Bid #" ++ toString id ++ " rejected! (demo)", "danger"⟩],
        response := .redirect "/bids" }

/-- `delete_bid` (src/app.py lines 253-265). -/
def delete_bid (sess : Session) (st : Store) (id : Nat) : HResult :=
  if sess.user_id.isNone then
    { store := st, session := sess, flashes := [], response := .redirect "/login" }
  else
    match st.bids.find? (fun b => b.id == id) with
    | some _ =>
      { store := { st with bids := st.bids.filter (fun b => b.id != id) },
        session := sess,
        flashes := [⟨"Bid #" ++ toString id ++ " deleted!", "warning"⟩],
        response := .redirect "/bids" }
    | none =>
      { store := st, session := sess,
        flashes := [⟨"Dummy Bid #" ++ toString id ++ " deleted! (demo)", "warning"⟩],
        response := .redirect "/bids" }

/-- `manage_auctions` (src/app.py lines 269-274). -/
def manage_auctions (sess : Session) (st : Store) : HResult :=
  if sess.user_id.isNone then
    { store := st, session := sess, flashes := [], response := .redirect "/login" }
  else
    { store := st, session := sess, flashes := [], response := .renderAuctions st.auctions }

/-- `update_auction_status` (src/app.py lines 277-284).  The handler runs
`auction.status = request.form['status']; db.session.commit()`, but the
`Auction` model declares no `status` column (lines 36-44): the assignment
only creates a transient Python attribute on the instance, so the commit
flushes nothing and the stored row is unchanged.  With an absent id the
handler dereferences `None` and the request fails. -/
def update_auction_status (sess : Session) (st : Store) (id : Nat)
    (statusField : String) : HResult :=
  if sess.user_id.isNone then
    { store := st, session := sess, flashes := [], response := .redirect "/login" }
  else
    match st.auctions.find? (fun a => a.id == id) with
    | some _ =>
      let _ := statusField
      { store := st, session := sess, flashes := [], response := .redirect "/auctions" }
    | none =>
      { store := st, session := sess, flashes := [], response := .serverError }

/-- Form fields of a create/edit auction POST.  `start_date`/`end_date`
carry the form strings; `datetime.strptime` only re-parses them for
storage. -/
structure AuctionForm where
  title : String
  description : String
  start_date : String
  end_date : String
  category_id : Nat
deriving DecidableEq, Repr

/-- `create_auction` (src/app.py lines 286-302); `form = none` is GET. -/
def create_auction (sess : Session) (st : Store) (form : Option AuctionForm) : HResult :=
  if sess.user_id.isNone then
    { store := st, session := sess, flashes := [], response := .redirect "/login" }
  else
    match form with
    | some f =>
      let new_auction : Auction :=
        { id := nextId (st.auctions.map Auction.id),
          title := f.title, description := f.description,
          start_date := f.start_date, end_date := f.end_date,
          category_id := f.category_id }
      { store := { st with auctions := st.auctions ++ [new_auction] }, session := sess,
        flashes := [], response := .redirect "/auctions" }
    | none =>
      { store := st, session := sess, flashes := [],
        response := .renderAuctionForm none st.categories }

/-- `edit_auction` (src/app.py lines 304-318); `form = none` is GET. -/
def edit_auction (sess : Session) (st : Store) (id : Nat) (form : Option AuctionForm) :
    HResult :=
  if sess.user_id.isNone then
    { store := st, session := sess, flashes := [], response := .redirect "/login" }
  else
    match form with
    | some f =>
      match st.auctions.find? (fun a => a.id == id) with
      | some _ =>
        { store := { st with auctions := st.auctions.map (fun a =>
            if a.id == id then
              { a with title := f.title, description := f.description,
                       start_date := f.start_date, end_date := f.end_date,
                       category_id := f.category_id }
            else a) },
          session := sess, flashes := [], response := .redirect "/auctions" }
      | none =>
        { store := st, session := sess, flashes := [], response := .serverError }
    | none =>
      { store := st, session := sess, flashes := [],
        response := .renderAuctionForm (st.auctions.find? (fun a => a.id == id))
          st.categories }

/-- `delete_auction` (src/app.py lines 320-327).  Deleting an absent id
passes `None` to `db.session.delete`, which raises. -/
def delete_auction (sess : Session) (st : Store) (id : Nat) : HResult :=
  if sess.user_id.isNone then
    { store := st, session := sess, flashes := [], response := .redirect "/login" }
  else
    match st.auctions.find? (fun a => a.id == id) with
    | some _ =>
      { store := { st with auctions := st.auctions.filter (fun a => a.id != id) },
        session := sess, flashes := [], response := .redirect "/auctions" }
    | none =>
      { store := st, session := sess, flashes := [], response := .serverError }

/-- `str(i).zfill(2)` for a natural number. -/
def zfill2 (n : Nat) : String :=
  if n < 10 then "0" ++ toString n else toString n

/-- The ten placeholder rows built by `manage_bids` when the bid table is
empty (src/app.py lines 343-353). -/
def dummyBids : List DummyBid :=
  (List.range 10).map (fun i =>
    { id := i + 1,
      auction := ⟨"Auction " ++ toString (i + 1)⟩,
      user := ⟨"User " ++ toString (i + 1)⟩,
      amount := 1000 + (i : Int) * 100,
      bid_time := "2025-09-30 12:" ++ zfill2 i ++ ":00",
      approved := false,
      rejected := false })

/-- `manage_bids` (src/app.py lines 331-354): list all bids; if the table
is empty, hand the template the ten synthetic placeholders instead.  The
placeholders are built per request and never added to the session or
committed. -/
def manage_bids (sess : Session) (st : Store) : HResult :=
  if sess.user_id.isNone then
    { store := st, session := sess, flashes := [], response := .redirect "/login" }
  else if st.bids.isEmpty then
    { store := st, session := sess, flashes := [],
      response := .renderBids (.dummies dummyBids) }
  else
    { store := st, session := sess, flashes := [],
      response := .renderBids (.real st.bids) }

/-- `approve_bid` (src/app.py lines 361-370): when the bid exists, set
approved and clear rejected; no flash is emitted in either branch. -/
def approve_bid (sess : Session) (st : Store) (id : Nat) : HResult :=
  if sess.user_id.isNone then
    { store := st, session := sess, flashes := [], response := .redirect "/login" }
  else
    match st.bids.find? (fun b => b.id == id) with
    | some _ =>
      { store := { st with bids := st.bids.map (fun b =>
          if b.id == id then { b with approved := true, rejected := false } else b) },
        session := sess, flashes := [], response := .redirect "/bids" }
    | none =>
      { store := st, session := sess, flashes := [], response := .redirect "/bids" }

/-- `manage_items` (src/app.py lines 386-391). -/
def manage_items (sess : Session) (st : Store) : HResult :=
  if sess.user_id.isNone then
    { store := st, session := sess, flashes := [], response := .redirect "/login" }
  else
    { store := st, session := sess, flashes := [], response := .renderItems st.items }

/-- Form fields of an add/edit item POST. -/
structure ItemForm where
  name : String
  description : String
  base_price : String
  image_url : String
  auction_id : Nat
  status : String
deriving DecidableEq, Repr

/-- `add_item` (src/app.py lines 393-410); `form = none` is GET. -/
def add_item (sess : Session) (st : Store) (form : Option ItemForm) : HResult :=
  if sess.user_id.isNone then
    { store := st, session := sess, flashes := [], response := .redirect "/login" }
  else
    match form with
    | some f =>
      let item : AuctionItem :=
        { id := nextId (st.items.map AuctionItem.id),
          name := f.name, description := f.description,
          base_price := f.base_price, image_url := f.image_url,
          auction_id := f.auction_id, status := f.status }
      { store := { st with items := st.items ++ [item] }, session := sess,
        flashes := [], response := .redirect "/items" }
    | none =>
      { store := st, session := sess, flashes := [],
        response := .renderItemForm none st.auctions }

/-- `edit_item` (src/app.py lines 412-427); `form = none` is GET. -/
def edit_item (sess : Session) (st : Store) (id : Nat) (form : Option ItemForm) :
    HResult :=
  if sess.user_id.isNone then
    { store := st, session := sess, flashes := [], response := .redirect "/login" }
  else
    match form with
    | some f =>
      match st.items.find? (fun i => i.id == id) with
      | some _ =>
        { store := { st with items := st.items.map (fun i =>
            if i.id == id then
              { i with name := f.name, description := f.description,
                       base_price := f.base_price, image_url := f.image_url,
                       auction_id := f.auction_id, status := f.status }
            else i) },
          session := sess, flashes := [], response := .redirect "/items" }
      | none =>
        { store := st, session := sess, flashes := [], response := .serverError }
    | none =>
      { store := st, session := sess, flashes := [],
        response := .renderItemForm (st.items.find? (fun i => i.id == id)) st.auctions }

/-- `delete_item` (src/app.py lines 429-436). -/
def delete_item (sess : Session) (st : Store) (id : Nat) : HResult :=
  if sess.user_id.isNone then
    { store := st, session := sess, flashes := [], response := .redirect "/login" }
  else
    match st.items.find? (fun i => i.id == id) with
    | some _ =>
      { store := { st with items := st.items.filter (fun i => i.id != id) },
        session := sess, flashes := [], response := .redirect "/items" }
    | none =>
      { store := st, session := sess, flashes := [], response := .serverError }

/-- `manage_categories` (src/app.py lines 440-445). -/
def manage_categories (sess : Session) (st : Store) : HResult :=
  if sess.user_id.isNone then
    { store := st, session := sess, flashes := [], response := .redirect "/login" }
  else
    { store := st, session := sess, flashes := [], response := .renderCategories st.categories }

/-- `add_category` (src/app.py lines 447-457). -/
def add_category (sess : Session) (st : Store) (name : String) : HResult :=
  if sess.user_id.isNone then
    { store := st, session := sess, flashes := [], response := .redirect "/login" }
  else if name != "" then
    let category : Category := { id := nextId (st.categories.map Category.id), name := name }
    { store := { st with categories := st.categories ++ [category] }, session := sess,
      flashes := [⟨"Category \x27" ++ name ++ "\x27 added successfully!", "success"⟩],
      response := .redirect "/categories" }
  else
    { store := st, session := sess, flashes := [], response := .redirect "/categories" }

/-- `delete_category` (src/app.py lines 459-468): delete the row when it
exists and flash; silently redirect otherwise. -/
def delete_category (sess : Session) (st : Store) (id : Nat) : HResult :=
  if sess.user_id.isNone then
    { store := st, session := sess, flashes := [], response := .redirect "/login" }
  else
    match st.categories.find? (fun c => c.id == id) with
    | some c =>
      { store := { st with categories := st.categories.filter (fun c2 => c2.id != id) },
        session := sess,
        flashes := [⟨"Category \x27" ++ c.name ++ "\x27 deleted successfully!", "warning"⟩],
        response := .redirect "/categories" }
    | none =>
      { store := st, session := sess, flashes := [], response := .redirect "/categories" }

/-! ## Sample data used by witnesses and counterexamples -/

/-- A session holding the markers a successful login establishes. -/
def sampleSession : Session :=
  { user_id := some 1, user_name := some "Admin", user_role := some "bidder" }

/-- The bootstrap administrator account. -/
def sampleUser : User :=
  { id := 1, name := "Admin", email := "admin@example.com",
    password := generate_password_hash "admin123", status := "active", role := "bidder" }

/-- A deactivated account with a known password. -/
def inactiveUser : User :=
  { id := 2, name := "Bob", email := "bob@example.com",
    password := generate_password_hash "bobpassword", status := "inactive", role := "seller" }

/-- A small concrete store exercising every table. -/
def sampleStore : Store :=
  { users := [sampleUser, inactiveUser],
    categories := [⟨1, "Art"⟩, ⟨2, "Cars"⟩],
    auctions := [⟨1, "Estate sale", "paintings", "2025-01-01", "2025-02-01", 1⟩],
    items := [⟨1, "Vase", "blue", "150", "vase.png", "active", 1⟩],
    bids := [⟨1, 1, 1, 500, "2025-01-05 10:00:00", false, false⟩,
             ⟨2, 1, 2, 600, "2025-01-06 10:00:00", true, false⟩] }

/-- The sample store with an empty bid table. -/
def sampleStoreNoBids : Store :=
  { sampleStore with bids := [] }

/-! ## Claims -/

/-- C1: a registration POST whose password has fewer than 8 characters
creates no user row — the store is unchanged — and the response redisplays
the registration form with the danger message of the first failing check
(name length after trimming, then email containing "@", then password
length, which must fail by the hypothesis). -/
theorem register_short_password (sess : Session) (st : Store) (f : RegisterForm)
    (h : f.password.length < 8) :
    (register sess st f).store = st ∧
    (register sess st f).response = Response.renderRegister ∧
    (register sess st f).flashes =
      [{ message :=
           if f.name == "" || f.name.trim.length < 2 then
             "Name must be at least 2 characters long"
           else if f.email == "" || !(f.email.contains '@') then
             "Please enter a valid email address"
           else
             "Password must be at least 8 characters long",
         category := "danger" }] := by
  unfold register
  by_cases h1 : (f.name == "" || decide (f.name.trim.length < 2)) = true
  · simp [h1]
  · by_cases h2 : (f.email == "" || !(f.email.contains '@')) = true
    · simp [h1, h2]
    · simp [h1, h2, h]

/-- Witness for `register_short_password` at a concrete short-password
form. -/
theorem register_short_password_witness :
    ("short" : String).length < 8 ∧
    (register Session.empty sampleStore
        ⟨"Carol", "carol@example.com", "short", "short", "bidder"⟩).store = sampleStore ∧
    (register Session.empty sampleStore
        ⟨"Carol", "carol@example.com", "short", "short", "bidder"⟩).response =
      Response.renderRegister :=
  ⟨by decide,
   (register_short_password Session.empty sampleStore
      ⟨"Carol", "carol@example.com", "short", "short", "bidder"⟩ (by decide)).1,
   (register_short_password Session.empty sampleStore
      ⟨"Carol", "carol@example.com", "short", "short", "bidder"⟩ (by decide)).2.1⟩

/-- C2: a registration POST whose email — either as submitted or after the
lowercasing and trimming applied before storage — already has a row in the
user table leaves the user table (and the whole store) unchanged and
redisplays the form: the pre-existing-user check fires on an exact match,
and otherwise the unique-email constraint failure is rolled back.  In
particular no second row with that email is ever created. -/
theorem register_existing_email (sess : Session) (st : Store) (f : RegisterForm)
    (h : ∃ u ∈ st.users, u.email = f.email ∨ u.email = f.email.toLower.trim) :
    (register sess st f).store = st ∧
    (register sess st f).response = Response.renderRegister := by
  obtain ⟨u, hu, hcase⟩ := h
  unfold register
  by_cases h1 : (f.name == "" || decide (f.name.trim.length < 2)) = true
  · simp [h1]
  · by_cases h2 : (f.email == "" || !(f.email.contains '@')) = true
    · simp [h1, h2]
    · by_cases h3 : f.password.length < 8
      · simp [h1, h2, h3]
      · by_cases h4 : (f.password != f.confirm_password) = true
        · simp [h1, h2, h3, h4]
        · by_cases h5 : (f.role == "") = true
          · simp [h1, h2, h3, h4, h5]
          · rcases hfind : st.users.find? (fun v => v.email == f.email) with _ | v
            · have hraw : u.email ≠ f.email := by
                intro he
                have : ∃ v ∈ st.users, (fun v => v.email == f.email) v = true :=
                  ⟨u, hu, by simp [he]⟩
                rw [← List.find?_isSome] at this
                rw [hfind] at this
                simp at this
              have hnorm : u.email = f.email.toLower.trim := by
                rcases hcase with hc | hc
                · exact absurd hc hraw
                · exact hc
              have hany : (st.users.any fun v => v.email == f.email.toLower.trim) = true := by
                rw [List.any_eq_true]
                exact ⟨u, hu, by simp [hnorm]⟩
              simp [h1, h2, h3, h4, h5, hfind, hany]
            · simp [h1, h2, h3, h4, h5, hfind]

/-- Witness for `register_existing_email`: re-registering the bootstrap
administrator's exact email. -/
theorem register_existing_email_witness :
    (∃ u ∈ sampleStore.users,
        u.email = "admin@example.com" ∨
        u.email = ("admin@example.com" : String).toLower.trim) ∧
    (register Session.empty sampleStore
        ⟨"Mallory", "admin@example.com", "password123", "password123", "bidder"⟩).store =
      sampleStore := by
  constructor
  · exact ⟨sampleUser, by simp [sampleStore, sampleUser], Or.inl rfl⟩
  · exact (register_existing_email Session.empty sampleStore
      ⟨"Mallory", "admin@example.com", "password123", "password123", "bidder"⟩
      ⟨sampleUser, by simp [sampleStore, sampleUser], Or.inl rfl⟩).1

/-- C3: a login POST whose email matches a stored user, whose password
passes the hash check, but whose user status is "inactive" leaves the
session exactly as it was (so the `user_id`, `user_name` and `user_role`
markers stay absent), changes no stored data, flashes the distinct
deactivation message, and re-renders the login page. -/
theorem login_inactive_no_session (sess : Session) (st : Store) (f : LoginForm) (u : User)
    (hfind : st.users.find? (fun v => v.email == f.email) = some u)
    (hpw : check_password_hash u.password f.password = true)
    (hstatus : u.status = "inactive") :
    (login sess st f).session = sess ∧
    (login sess st f).store = st ∧
    (login sess st f).flashes =
      [⟨"Your account has been deactivated. Please contact administrator.", "danger"⟩] ∧
    (login sess st f).response = Response.renderLogin := by
  unfold login
  rw [hfind]
  simp [hpw, hstatus]

/-- Witness for `login_inactive_no_session`: the deactivated sample user
logging in with the correct password. -/
theorem login_inactive_no_session_witness :
    inactiveUser.status = "inactive" ∧
    (login Session.empty sampleStore ⟨"bob@example.com", "bobpassword"⟩).session =
      Session.empty ∧
    (login Session.empty sampleStore ⟨"bob@example.com", "bobpassword"⟩).store =
      sampleStore := by
  have h := login_inactive_no_session Session.empty sampleStore
    ⟨"bob@example.com", "bobpassword"⟩ inactiveUser (by decide) (by decide) rfl
  exact ⟨rfl, h.1, h.2.1⟩

/-- `st2` agrees with `st` except that every bid row whose id is `X` has
its `approved`/`rejected` flags replaced by the given values: same number
of rows, rows of other ids carried over both ways, rows of id `X` carried
over with only the two flags changed, and the four other tables equal. -/
def BidFlagsSetOnly (st st2 : Store) (X : Nat) (app rej : Bool) : Prop :=
  st2.bids.length = st.bids.length ∧
  (∀ b ∈ st.bids, b.id = X →
     ({ b with approved := app, rejected := rej } : Bid) ∈ st2.bids) ∧
  (∀ b ∈ st.bids, b.id ≠ X → b ∈ st2.bids) ∧
  (∀ b ∈ st2.bids, b.id = X → b.approved = app ∧ b.rejected = rej) ∧
  (∀ b ∈ st2.bids, b.id ≠ X → b ∈ st.bids) ∧
  st2.users = st.users ∧ st2.categories = st.categories ∧
  st2.auctions = st.auctions ∧ st2.items = st.items

/-- Pointwise flag update of the bid table satisfies `BidFlagsSetOnly`. -/
theorem bidFlagsSetOnly_map (st : Store) (X : Nat) (app rej : Bool) :
    BidFlagsSetOnly st
      { st with bids := st.bids.map (fun b =>
          if b.id == X then { b with approved := app, rejected := rej } else b) }
      X app rej := by
  refine ⟨by simp, ?_, ?_, ?_, ?_, rfl, rfl, rfl, rfl⟩
  · intro b hb hid
    exact List.mem_map.mpr ⟨b, hb, by simp [hid]⟩
  · intro b hb hid
    exact List.mem_map.mpr ⟨b, hb, by simp [hid]⟩
  · intro b hb hid
    obtain ⟨a, ha, hfa⟩ := List.mem_map.mp hb
    by_cases hax : a.id = X
    · rw [if_pos (by simp [hax])] at hfa
      rw [← hfa]
      exact ⟨rfl, rfl⟩
    · rw [if_neg (by simp [hax])] at hfa
      exact absurd (hfa ▸ hid) hax
  · intro b hb hid
    obtain ⟨a, ha, hfa⟩ := List.mem_map.mp hb
    by_cases hax : a.id = X
    · rw [if_pos (by simp [hax])] at hfa
      exact absurd (by rw [← hfa]; exact hax) hid
    · rw [if_neg (by simp [hax])] at hfa
      rw [← hfa]; exact ha

/-- C4: with an authenticated session and bid id `X` present, `approve_bid`
sets approved=true and rejected=false on the row with id `X` and changes
nothing else; symmetrically `reject_bid` sets rejected=true and
approved=false on that row only. -/
theorem approve_reject_bid_frame (sess : Session) (st : Store) (X : Nat) (uid : Nat)
    (hauth : sess.user_id = some uid)
    (hpresent : ∃ b ∈ st.bids, b.id = X) :
    BidFlagsSetOnly st (approve_bid sess st X).store X true false ∧
    BidFlagsSetOnly st (reject_bid sess st X).store X false true := by
  obtain ⟨b0, hb0, hid0⟩ := hpresent
  have hsome : (st.bids.find? (fun b => b.id == X)).isSome :=
    List.find?_isSome.mpr ⟨b0, hb0, by simp [hid0]⟩
  obtain ⟨bf, hbf⟩ := Option.isSome_iff_exists.mp hsome
  constructor
  · unfold approve_bid
    simp only [hauth, Option.isNone_some, Bool.false_eq_true, if_false, hbf]
    exact bidFlagsSetOnly_map st X true false
  · unfold reject_bid
    simp only [hauth, Option.isNone_some, Bool.false_eq_true, if_false, hbf]
    exact bidFlagsSetOnly_map st X false true

/-- Witness for `approve_reject_bid_frame` at bid id 1 of the sample
store. -/
theorem approve_reject_bid_frame_witness :
    sampleSession.user_id = some 1 ∧
    (∃ b ∈ sampleStore.bids, b.id = 1) ∧
    (approve_bid sampleSession sampleStore 1).store.bids.length =
      sampleStore.bids.length ∧
    (reject_bid sampleSession sampleStore 1).store.bids.length =
      sampleStore.bids.length := by
  have h := approve_reject_bid_frame sampleSession sampleStore 1 1 rfl (by decide)
  exact ⟨rfl, by decide, h.1.1, h.2.1⟩

/-- C5: with an authenticated session and an empty bid table, listing bids
renders exactly ten synthetic placeholder rows with ids 1..10 and amounts
1000, 1100, ..., 1900 in order, persists nothing (the store is unchanged),
and an immediately repeated call on the resulting store renders the
identical placeholders. -/
theorem manage_bids_empty_placeholders (sess : Session) (st : Store) (uid : Nat)
    (hauth : sess.user_id = some uid) (hempty : st.bids = []) :
    (manage_bids sess st).store = st ∧
    (∃ ds, (manage_bids sess st).response = Response.renderBids (.dummies ds) ∧
       ds.map DummyBid.id = [1, 2, 3, 4, 5, 6, 7, 8, 9, 10] ∧
       ds.map DummyBid.amount =
         [1000, 1100, 1200, 1300, 1400, 1500, 1600, 1700, 1800, 1900]) ∧
    (manage_bids sess (manage_bids sess st).store).response =
      (manage_bids sess st).response := by
  have h1 : manage_bids sess st =
      { store := st, session := sess, flashes := [],
        response := .renderBids (.dummies dummyBids) } := by
    unfold manage_bids
    simp [hauth, hempty]
  refine ⟨by rw [h1], ⟨dummyBids, by rw [h1], by decide, by decide⟩, ?_⟩
  simp only [h1]

/-- Witness for `manage_bids_empty_placeholders` on the sample store with
its bid table emptied. -/
theorem manage_bids_empty_placeholders_witness :
    sampleSession.user_id = some 1 ∧
    sampleStoreNoBids.bids = [] ∧
    (manage_bids sampleSession sampleStoreNoBids).store = sampleStoreNoBids := by
  have h := manage_bids_empty_placeholders sampleSession sampleStoreNoBids 1 rfl rfl
  exact ⟨rfl, rfl, h.1⟩

/-- C6: every protected route handler, invoked with a session holding no
`user_id` marker, returns exactly the unchanged store, the unchanged
session, no flashes, and a redirect to the login page — whatever its other
arguments are. -/
theorem protected_routes_redirect_when_unauthenticated (sess : Session) (st : Store)
    (id : Nat) (auf : Option AddUserForm) (uf : Option EditUserForm)
    (af : Option AuctionForm) (itf : Option ItemForm) (nm stf : String)
    (hauth : sess.user_id = none) :
    dashboard sess st = ⟨st, sess, [], .redirect "/login"⟩ ∧
    manage_users sess st = ⟨st, sess, [], .redirect "/login"⟩ ∧
    add_user sess st auf = ⟨st, sess, [], .redirect "/login"⟩ ∧
    edit_user sess st id uf = ⟨st, sess, [], .redirect "/login"⟩ ∧
    deactivate_user sess st id = ⟨st, sess, [], .redirect "/login"⟩ ∧
    reject_bid sess st id = ⟨st, sess, [], .redirect "/login"⟩ ∧
    delete_bid sess st id = ⟨st, sess, [], .redirect "/login"⟩ ∧
    manage_auctions sess st = ⟨st, sess, [], .redirect "/login"⟩ ∧
    update_auction_status sess st id stf = ⟨st, sess, [], .redirect "/login"⟩ ∧
    create_auction sess st af = ⟨st, sess, [], .redirect "/login"⟩ ∧
    edit_auction sess st id af = ⟨st, sess, [], .redirect "/login"⟩ ∧
    delete_auction sess st id = ⟨st, sess, [], .redirect "/login"⟩ ∧
    manage_bids sess st = ⟨st, sess, [], .redirect "/login"⟩ ∧
    approve_bid sess st id = ⟨st, sess, [], .redirect "/login"⟩ ∧
    manage_items sess st = ⟨st, sess, [], .redirect "/login"⟩ ∧
    add_item sess st itf = ⟨st, sess, [], .redirect "/login"⟩ ∧
    edit_item sess st id itf = ⟨st, sess, [], .redirect "/login"⟩ ∧
    delete_item sess st id = ⟨st, sess, [], .redirect "/login"⟩ ∧
    manage_categories sess st = ⟨st, sess, [], .redirect "/login"⟩ ∧
    add_category sess st nm = ⟨st, sess, [], .redirect "/login"⟩ ∧
    delete_category sess st id = ⟨st, sess, [], .redirect "/login"⟩ := by
  refine ⟨?_, ?_, ?_, ?_, ?_, ?_, ?_, ?_, ?_, ?_, ?_, ?_, ?_, ?_, ?_, ?_, ?_, ?_,
    ?_, ?_, ?_⟩ <;>
    simp [dashboard, manage_users, add_user, edit_user, deactivate_user, reject_bid,
      delete_bid, manage_auctions, update_auction_status, create_auction, edit_auction,
      delete_auction, manage_bids, approve_bid, manage_items, add_item, edit_item,
      delete_item, manage_categories, add_category, delete_category, hauth]

/-- Witness for `protected_routes_redirect_when_unauthenticated` with the
empty session and the sample store. -/
theorem protected_routes_redirect_witness :
    Session.empty.user_id = none ∧
    dashboard Session.empty sampleStore =
      ⟨sampleStore, Session.empty, [], .redirect "/login"⟩ ∧
    approve_bid Session.empty sampleStore 1 =
      ⟨sampleStore, Session.empty, [], .redirect "/login"⟩ := by
  have h := protected_routes_redirect_when_unauthenticated Session.empty sampleStore
    1 none none none none "x" "y" rfl
  exact ⟨rfl, h.1, h.2.2.2.2.2.2.2.2.2.2.2.2.2.1⟩

/-- C7 counterexample: with an authenticated session and the absent bid id
5, `approve_bid` leaves the store unchanged but emits no flash message at
all, refuting the claim that each of the three bid operations still
produces a success-style flash for a non-existent id. -/
theorem approve_bid_missing_id_emits_no_flash :
    (approve_bid sampleSession sampleStore 5).flashes = [] ∧
    (approve_bid sampleSession sampleStore 5).store = sampleStore := by decide

/-- C7 (amended): with an authenticated session and a bid id absent from
the bid table, all three of `approve_bid`, `reject_bid` and `delete_bid`
leave the entire store unchanged and redirect to the bid list; `reject_bid`
and `delete_bid` still flash a message phrased like the success path
(marked "demo"), while `approve_bid` emits no flash at all. -/
theorem bid_ops_missing_id (sess : Session) (st : Store) (X : Nat) (uid : Nat)
    (hauth : sess.user_id = some uid)
    (habsent : ∀ b ∈ st.bids, b.id ≠ X) :
    (approve_bid sess st X).store = st ∧
    (approve_bid sess st X).flashes = [] ∧
    (approve_bid sess st X).response = Response.redirect "/bids" ∧
    (reject_bid sess st X).store = st ∧
    (reject_bid sess st X).flashes =
      [⟨"Dummy Bid #" ++ toString X ++ " rejected! (demo)", "danger"⟩] ∧
    (reject_bid sess st X).response = Response.redirect "/bids" ∧
    (delete_bid sess st X).store = st ∧
    (delete_bid sess st X).flashes =
      [⟨"Dummy Bid #" ++ toString X ++ " deleted! (demo)", "warning"⟩] ∧
    (delete_bid sess st X).response = Response.redirect "/bids" := by
  have hfind : st.bids.find? (fun b => b.id == X) = none := by
    rw [List.find?_eq_none]
    intro b hb
    simpa using habsent b hb
  unfold approve_bid reject_bid delete_bid
  simp [hauth, hfind]

/-- Witness for `bid_ops_missing_id` at the absent bid id 99. -/
theorem bid_ops_missing_id_witness :
    sampleSession.user_id = some 1 ∧
    (∀ b ∈ sampleStore.bids, b.id ≠ 99) ∧
    (approve_bid sampleSession sampleStore 99).store = sampleStore ∧
    (reject_bid sampleSession sampleStore 99).store = sampleStore ∧
    (delete_bid sampleSession sampleStore 99).store = sampleStore := by
  have h := bid_ops_missing_id sampleSession sampleStore 99 1 rfl (by decide)
  exact ⟨rfl, by decide, h.1, h.2.2.2.1, h.2.2.2.2.2.2.1⟩

/-- C8: the `Auction` model declares no `status` column, so a POST to
`update_auction_status` for the existing auction id 1 with status "closed"
leaves the whole store — in particular the stored auction row — unchanged
while still redirecting as if it had succeeded: nothing about the submitted
status survives the request, contradicting the documented data model. -/
theorem update_auction_status_not_persisted :
    (update_auction_status sampleSession sampleStore 1 "closed").store = sampleStore ∧
    (update_auction_status sampleSession sampleStore 1 "closed").response =
      Response.redirect "/auctions" ∧
    (∃ a ∈ sampleStore.auctions, a.id = 1) := by decide

/-- C9: with an authenticated session, `delete_category X` removes every
category row with id `X`, keeps every other category row, adds nothing,
leaves all other tables untouched; and when no row has id `X` the whole
store is unchanged. -/
theorem delete_category_frame (sess : Session) (st : Store) (X : Nat) (uid : Nat)
    (hauth : sess.user_id = some uid) :
    ((∃ c ∈ st.categories, c.id = X) →
       (∀ c ∈ (delete_category sess st X).store.categories, c.id ≠ X) ∧
       (∀ c ∈ st.categories, c.id ≠ X →
          c ∈ (delete_category sess st X).store.categories) ∧
       (∀ c ∈ (delete_category sess st X).store.categories, c ∈ st.categories) ∧
       (delete_category sess st X).store.users = st.users ∧
       (delete_category sess st X).store.auctions = st.auctions ∧
       (delete_category sess st X).store.items = st.items ∧
       (delete_category sess st X).store.bids = st.bids) ∧
    ((∀ c ∈ st.categories, c.id ≠ X) → (delete_category sess st X).store = st) := by
  constructor
  · intro hpresent
    obtain ⟨c0, hc0, hid0⟩ := hpresent
    have hsome : (st.categories.find? (fun c => c.id == X)).isSome :=
      List.find?_isSome.mpr ⟨c0, hc0, by simp [hid0]⟩
    obtain ⟨cf, hcf⟩ := Option.isSome_iff_exists.mp hsome
    unfold delete_category
    simp only [hauth, Option.isNone_some, Bool.false_eq_true, if_false, hcf]
    refine ⟨?_, ?_, ?_, by trivial, by trivial, by trivial, by trivial⟩
    · intro c hc
      have := (List.mem_filter.mp hc).2
      simpa using this
    · intro c hc hid
      exact List.mem_filter.mpr ⟨hc, by simpa using hid⟩
    · intro c hc
      exact (List.mem_filter.mp hc).1
  · intro habsent
    have hfind : st.categories.find? (fun c => c.id == X) = none := by
      rw [List.find?_eq_none]
      intro c hc
      simpa using habsent c hc
    unfold delete_category
    simp [hauth, hfind]

/-- Witness for `delete_category_frame`: deleting category id 1 from the
sample store removes it, keeps category id 2, and deleting the absent id 99
changes nothing. -/
theorem delete_category_frame_witness :
    sampleSession.user_id = some 1 ∧
    (∃ c ∈ sampleStore.categories, c.id = 1) ∧
    (∀ c ∈ (delete_category sampleSession sampleStore 1).store.categories, c.id ≠ 1) ∧
    (∀ c ∈ sampleStore.categories, c.id ≠ 99) ∧
    (delete_category sampleSession sampleStore 99).store = sampleStore := by
  have h1 := (delete_category_frame sampleSession sampleStore 1 1 rfl).1 (by decide)
  have h2 := (delete_category_frame sampleSession sampleStore 99 1 rfl).2 (by decide)
  exact ⟨rfl, by decide, h1.1, by decide, h2⟩

/-- C10: with an authenticated session and user id present, an `edit_user`
POST redirects to the user list, keeps the table size, replaces the row of
that id by the same row with name, email, status and role overwritten by
the form values — its password hash and id untouched — and carries every
other user row and every other table over unchanged. -/
theorem edit_user_updates_fields_preserves_password (sess : Session) (st : Store)
    (id : Nat) (uid : Nat) (f : EditUserForm)
    (hauth : sess.user_id = some uid)
    (hpresent : ∃ u ∈ st.users, u.id = id) :
    (edit_user sess st id (some f)).response = Response.redirect "/users" ∧
    (edit_user sess st id (some f)).store.users.length = st.users.length ∧
    (∀ u ∈ st.users, u.id = id →
       ({ u with name := f.name, email := f.email, status := f.status,
                 role := f.role } : User)
         ∈ (edit_user sess st id (some f)).store.users) ∧
    (∀ u ∈ (edit_user sess st id (some f)).store.users, u.id = id →
       u.name = f.name ∧ u.email = f.email ∧ u.status = f.status ∧ u.role = f.role) ∧
    (∀ u ∈ st.users, u.id ≠ id → u ∈ (edit_user sess st id (some f)).store.users) ∧
    (∀ u ∈ (edit_user sess st id (some f)).store.users, u.id ≠ id → u ∈ st.users) ∧
    (edit_user sess st id (some f)).store.categories = st.categories ∧
    (edit_user sess st id (some f)).store.auctions = st.auctions ∧
    (edit_user sess st id (some f)).store.items = st.items ∧
    (edit_user sess st id (some f)).store.bids = st.bids := by
  obtain ⟨u0, hu0, hid0⟩ := hpresent
  have hsome : (st.users.find? (fun u => u.id == id)).isSome :=
    List.find?_isSome.mpr ⟨u0, hu0, by simp [hid0]⟩
  obtain ⟨uf, huf⟩ := Option.isSome_iff_exists.mp hsome
  unfold edit_user
  simp only [hauth, Option.isNone_some, Bool.false_eq_true, if_false, huf]
  refine ⟨by trivial, by simp, ?_, ?_, ?_, ?_, by trivial, by trivial, by trivial,
    by trivial⟩
  · intro u hu hid
    exact List.mem_map.mpr ⟨u, hu, by simp [hid]⟩
  · intro u hu hid
    obtain ⟨a, ha, hfa⟩ := List.mem_map.mp hu
    by_cases hax : a.id = id
    · rw [if_pos (by simp [hax])] at hfa
      rw [← hfa]
      exact ⟨rfl, rfl, rfl, rfl⟩
    · rw [if_neg (by simp [hax])] at hfa
      exact absurd (hfa ▸ hid) hax
  · intro u hu hid
    exact List.mem_map.mpr ⟨u, hu, by simp [hid]⟩
  · intro u hu hid
    obtain ⟨a, ha, hfa⟩ := List.mem_map.mp hu
    by_cases hax : a.id = id
    · rw [if_pos (by simp [hax])] at hfa
      exact absurd (by rw [← hfa]; exact hax) hid
    · rw [if_neg (by simp [hax])] at hfa
      rw [← hfa]; exact ha

/-- Witness for `edit_user_updates_fields_preserves_password`: editing the
deactivated sample user keeps the table size and redirects. -/
theorem edit_user_updates_fields_witness :
    sampleSession.user_id = some 1 ∧
    (∃ u ∈ sampleStore.users, u.id = 2) ∧
    (edit_user sampleSession sampleStore 2
        (some ⟨"Robert", "robert@example.com", "active", "bidder"⟩)).response =
      Response.redirect "/users" ∧
    (edit_user sampleSession sampleStore 2
        (some ⟨"Robert", "robert@example.com", "active", "bidder"⟩)).store.users.length =
      sampleStore.users.length := by
  have h := edit_user_updates_fields_preserves_password sampleSession sampleStore 2 1
    ⟨"Robert", "robert@example.com", "active", "bidder"⟩ rfl (by decide)
  exact ⟨rfl, by decide, h.1, h.2.1⟩

end BiddingSystem
